import Mathlib

/-!
Shallow embedding of the foodgram-st backend (Django/DRF recipe-sharing
service) and verification of its specification claims.

Sources embedded:
- `backend/api/serializers.py` — recipe create/update validation,
  base62 short-link encoder, computed read fields;
- `backend/api/views.py` — membership-set endpoints (favorite,
  shopping_cart, subscribe), subscriptions listing, shopping-list report;
- `backend/recipes/models.py`, `backend/users/models.py` — table rows,
  validator bounds and uniqueness/self-reference constraints.

Tables are lists of row structures; each endpoint is a pure function from
table state to an `Except`-style outcome mirroring the view code.
-/

namespace Foodgram

/-- Row of `recipes.Ingredient`: preset ingredient with a unit. -/
structure IngredientRow where
  id : Nat
  name : String
  measurement_unit : String
deriving DecidableEq, Repr

/-- Row of `recipes.Recipe` (fields relevant to the claims). -/
structure RecipeRow where
  id : Nat
  author : Nat
  name : String
  image : String
  text : String
  cooking_time : Nat
deriving DecidableEq, Repr

/-- Row of `recipes.RecipeIngredient`: a line item of a recipe. -/
structure RecipeIngredientRow where
  recipe : Nat
  ingredient : Nat
  amount : Nat
deriving DecidableEq, Repr

/-- Row of `recipes.Favorite`: user marked recipe as favorite. -/
structure FavoriteRow where
  user : Nat
  recipe : Nat
  created : Nat
deriving DecidableEq, Repr

/-- Row of `recipes.ShoppingCart`: user put recipe into the cart. -/
structure ShoppingCartRow where
  user : Nat
  recipe : Nat
  created : Nat
deriving DecidableEq, Repr

/-- Row of `users.Subscription`: `user` follows `author`. -/
structure SubscriptionRow where
  user : Nat
  author : Nat
  created : Nat
deriving DecidableEq, Repr

/-- `recipes/models.py`: MIN_COOKING_TIME. -/
def MIN_COOKING_TIME : Nat := 1

/-- `recipes/models.py`: MAX_COOKING_TIME. -/
def MAX_COOKING_TIME : Nat := 32000

/-- `recipes/models.py`: MIN_INGREDIENT_AMOUNT. -/
def MIN_INGREDIENT_AMOUNT : Nat := 1

/-- `recipes/models.py`: MAX_INGREDIENT_AMOUNT. -/
def MAX_INGREDIENT_AMOUNT : Nat := 32000

/-- The bound declared by the model validators on `Recipe.cooking_time`
(`MinValueValidator(1)` / `MaxValueValidator(32000)`). -/
def modelCookingTimeValid (t : Nat) : Bool :=
  MIN_COOKING_TIME ≤ t && t ≤ MAX_COOKING_TIME

/-- The bound declared by the model validators on `RecipeIngredient.amount`
(`MinValueValidator(1)` / `MaxValueValidator(32000)`). -/
def modelAmountValid (a : Nat) : Bool :=
  MIN_INGREDIENT_AMOUNT ≤ a && a ≤ MAX_INGREDIENT_AMOUNT

/-! ### Short-link encoder (`RecipeGetShortLinkSerializer._encode_base62`) -/

/-- The 62-symbol alphabet of `_encode_base62`: digits, lowercase,
uppercase, in that order. -/
def alphabet : String :=
  "0123456789abcdefghijklmnopqrstuvwxyzABCDEFGHIJKLMNOPQRSTUVWXYZ"

/-- `alphabet[d]` as in the Python subscript (`' '` out of range,
never reached: every produced digit is `< 62`). -/
def b62Char (d : Nat) : Char :=
  alphabet.toList.getD d ' '

/-- The `while num:` loop of `_encode_base62`, collecting remainders
least-significant first.  The extra fuel argument makes the recursion
structural; `fuel = num` always suffices since `num / 62 < num`. -/
def b62DigitsRevAux : Nat → Nat → List Nat
  | 0, _ => []
  | _ + 1, 0 => []
  | fuel + 1, n + 1 => ((n + 1) % 62) :: b62DigitsRevAux fuel ((n + 1) / 62)

/-- Remainder digits of `num` in base 62, least-significant first. -/
def b62DigitsRev (num : Nat) : List Nat :=
  b62DigitsRevAux num num

/-- `_encode_base62(num)`: `0 → "0"`, else the collected remainder
characters reversed (most significant first). -/
def encode_base62 (num : Nat) : String :=
  if num = 0 then String.mk [b62Char 0]
  else String.mk (((b62DigitsRev num).map b62Char).reverse)

/-- Index of a character in the alphabet (decoding helper, defined for
the verification only). -/
def b62CharIndex (c : Char) : Nat :=
  alphabet.toList.indexOf c

/-- Base-62 decoder used to establish injectivity of `encode_base62`. -/
def decode_base62 (s : String) : Nat :=
  s.toList.foldl (fun a c => a * 62 + b62CharIndex c) 0

/-! ### Membership-set endpoints (`views.py`) -/

/-- `RecipeViewSet.favorite`, POST branch: reject an existing pair,
otherwise create the row (`created` is the auto-now timestamp `t`). -/
def favoritePost (favs : List FavoriteRow) (u r t : Nat) :
    Except String (List FavoriteRow) :=
  if favs.any (fun f => f.user == u && f.recipe == r) then
    Except.error "Рецепт уже добавлен в избранное."
  else Except.ok (favs ++ [⟨u, r, t⟩])

/-- `RecipeViewSet.favorite`, DELETE branch: reject a missing pair,
otherwise delete the matching rows. -/
def favoriteDelete (favs : List FavoriteRow) (u r : Nat) :
    Except String (List FavoriteRow) :=
  if favs.any (fun f => f.user == u && f.recipe == r) then
    Except.ok (favs.filter (fun f => !(f.user == u && f.recipe == r)))
  else Except.error "Рецепт не найден в избранном."

/-- `RecipeViewSet.shopping_cart`, POST branch. -/
def shoppingCartPost (cart : List ShoppingCartRow) (u r t : Nat) :
    Except String (List ShoppingCartRow) :=
  if cart.any (fun c => c.user == u && c.recipe == r) then
    Except.error "Рецепт уже добавлен в список покупок."
  else Except.ok (cart ++ [⟨u, r, t⟩])

/-- `RecipeViewSet.shopping_cart`, DELETE branch. -/
def shoppingCartDelete (cart : List ShoppingCartRow) (u r : Nat) :
    Except String (List ShoppingCartRow) :=
  if cart.any (fun c => c.user == u && c.recipe == r) then
    Except.ok (cart.filter (fun c => !(c.user == u && c.recipe == r)))
  else Except.error "Рецепт не найден в списке покупок."

/-- `CustomUserViewSet.subscribe`, POST branch: the self-subscription
check precedes both method branches in the view. -/
def subscribePost (subs : List SubscriptionRow) (u a t : Nat) :
    Except String (List SubscriptionRow) :=
  if u == a then Except.error "Нельзя подписаться на самого себя."
  else if subs.any (fun s => s.user == u && s.author == a) then
    Except.error "Вы уже подписаны на этого автора."
  else Except.ok (subs ++ [⟨u, a, t⟩])

/-- `CustomUserViewSet.subscribe`, DELETE branch. -/
def subscribeDelete (subs : List SubscriptionRow) (u a : Nat) :
    Except String (List SubscriptionRow) :=
  if u == a then Except.error "Нельзя подписаться на самого себя."
  else if subs.any (fun s => s.user == u && s.author == a) then
    Except.ok (subs.filter (fun s => !(s.user == u && s.author == a)))
  else Except.error "Вы не подписаны на этого автора."

/-- Requests against the subscription table: each request leaves the
table unchanged when the endpoint answers with an error. -/
inductive SubOp where
  | post (u a t : Nat)
  | del (u a : Nat)

/-- Table after one subscribe/unsubscribe request. -/
def applySubOp (subs : List SubscriptionRow) : SubOp → List SubscriptionRow
  | SubOp.post u a t =>
    match subscribePost subs u a t with
    | Except.ok s => s
    | Except.error _ => subs
  | SubOp.del u a =>
    match subscribeDelete subs u a with
    | Except.ok s => s
    | Except.error _ => subs

/-- Table after a sequence of subscribe/unsubscribe requests. -/
def runSubOps (subs : List SubscriptionRow) (ops : List SubOp) : List SubscriptionRow :=
  ops.foldl applySubOp subs

/-- The `prevent_self_subscription` check constraint of
`users.Subscription.Meta`: no row has `user == author`. -/
def noSelfSub (subs : List SubscriptionRow) : Bool :=
  subs.all (fun s => s.user != s.author)

/-- `CustomUserViewSet.subscriptions`: the authors the user follows are
re-queried as `User.objects.filter(id__in=...)`, so the database returns
them in the user table's `ordering = ["id"]`, ascending by id.  `users`
is the list of user-table ids. -/
def subscriptionsList (users : List Nat) (subs : List SubscriptionRow) (u : Nat) :
    List Nat :=
  List.insertionSort (fun x y : Nat => x ≤ y)
    (users.filter (fun uid => subs.any (fun s => s.user == u && s.author == uid)))

/-- The ordering the spec prescribes for the subscriptions listing,
written from the spec's words for comparison with `subscriptionsList`:
all targets of the owner, newest-first by the membership row's creation
time. -/
def subscriptionsListSpec (subs : List SubscriptionRow) (u : Nat) : List Nat :=
  (List.insertionSort (fun s1 s2 : SubscriptionRow => s2.created ≤ s1.created)
    (subs.filter (fun s => s.user == u))).map (fun s => s.author)

/-! ### Recipe create/update (`RecipeCreateSerializer`) -/

/-- One entry of the submitted `ingredients` list: ingredient id and
amount. -/
structure ItemInput where
  ingredient : Nat
  amount : Nat
deriving DecidableEq, Repr

/-- The writable payload of `RecipeCreateSerializer` on create. -/
structure RecipeInput where
  name : String
  image : String
  text : String
  cooking_time : Nat
  ingredients : List ItemInput
deriving DecidableEq, Repr

/-- `RecipeCreateSerializer.validate_ingredients`: at least one entry
and no duplicated ingredient ids. -/
def validate_ingredients (value : List ItemInput) : Except String (List ItemInput) :=
  if value.isEmpty then
    Except.error "Необходимо добавить хотя бы один ингредиент."
  else if (value.map (fun it => it.ingredient)).length ≠
      ((value.map (fun it => it.ingredient)).dedup).length then
    Except.error "Ингредиенты не должны повторяться."
  else Except.ok value

/-- The serializer-level validation run by `is_valid` on create: the
declared fields `cooking_time = IntegerField(min_value=1)` and
`amount = IntegerField(min_value=1)` (these declarations replace the
model fields, so no upper bound is checked here), then
`validate_ingredients`.  Returns the validated input or the offending
field with its message. -/
def runCreateValidation (inp : RecipeInput) : Except (String × String) RecipeInput :=
  if inp.cooking_time < 1 then
    Except.error ("cooking_time", "Ensure this value is greater than or equal to 1.")
  else if inp.ingredients.any (fun it => it.amount < 1) then
    Except.error ("ingredients", "Ensure this value is greater than or equal to 1.")
  else
    match validate_ingredients inp.ingredients with
    | Except.error e => Except.error ("ingredients", e)
    | Except.ok v => Except.ok { inp with ingredients := v }

/-- Database state touched by recipe create/update. -/
structure RecipeState where
  recipes : List RecipeRow
  items : List RecipeIngredientRow
  nextId : Nat
deriving DecidableEq, Repr

/-- One `RecipeIngredient` insert; the database refuses a violation of
the `unique_recipe_ingredient` constraint. -/
def insertItem (items : List RecipeIngredientRow) (row : RecipeIngredientRow) :
    Except String (List RecipeIngredientRow) :=
  if items.any (fun r => r.recipe == row.recipe && r.ingredient == row.ingredient) then
    Except.error "unique_recipe_ingredient"
  else Except.ok (items ++ [row])

/-- `RecipeIngredient.objects.bulk_create` of `create_ingredients`:
insert each built row in turn. -/
def insertItems (items : List RecipeIngredientRow) :
    List RecipeIngredientRow → Except String (List RecipeIngredientRow)
  | [] => Except.ok items
  | row :: rest =>
    match insertItem items row with
    | Except.error e => Except.error e
    | Except.ok items2 => insertItems items2 rest

/-- The `RecipeIngredient` rows `create_ingredients` builds for a
recipe from the validated `ingredients` data. -/
def itemRowsOf (rid : Nat) (ing : List ItemInput) : List RecipeIngredientRow :=
  ing.map (fun it => { recipe := rid, ingredient := it.ingredient, amount := it.amount })

/-- The recipe row written by `Recipe.objects.create(**validated_data)`
with `author` taken from the request. -/
def newRecipeRow (rid a : Nat) (inp : RecipeInput) : RecipeRow :=
  { id := rid, author := a, name := inp.name, image := inp.image,
    text := inp.text, cooking_time := inp.cooking_time }

/-- `RecipeCreateSerializer.create`.  Modelled from the spec: the write
runs "inside a single transaction so the recipe row and its line items
become visible atomically" — the transaction configuration lives in the
Django settings, which are not among the sources here — so the caller
observes either the fully written new state or, on any error, the
unchanged old state.  The body is the serializer's:
`Recipe.objects.create` (the fresh id is `st.nextId`), then
`create_ingredients`. -/
def recipeCreateTx (st : RecipeState) (a : Nat) (inp : RecipeInput) :
    Except String RecipeState :=
  let rid := st.nextId
  let recipes2 := st.recipes ++ [newRecipeRow rid a inp]
  match insertItems st.items (itemRowsOf rid inp.ingredients) with
  | Except.error e => Except.error e
  | Except.ok items2 =>
    Except.ok { recipes := recipes2, items := items2, nextId := rid + 1 }

/-- The writable payload of `RecipeCreateSerializer` on update; absent
fields were not submitted. -/
structure RecipeUpdateInput where
  name : Option String
  image : Option String
  text : Option String
  cooking_time : Option Nat
  ingredients : Option (List ItemInput)
deriving DecidableEq, Repr

/-- The `setattr` loop of `update`: overwrite the submitted plain
fields. -/
def applyRecipeFields (r : RecipeRow) (d : RecipeUpdateInput) : RecipeRow :=
  { r with
    name := d.name.getD r.name
    image := d.image.getD r.image
    text := d.text.getD r.text
    cooking_time := d.cooking_time.getD r.cooking_time }

/-- `RecipeCreateSerializer.update`, with the same spec-modelled
transaction boundary as `recipeCreateTx`: `ingredients` must be present
in the validated data, plain fields are overwritten, the instance's old
line items are deleted (`instance.recipe_ingredients.all().delete()`)
and the submitted ones are bulk-created. -/
def recipeUpdateTx (st : RecipeState) (rid : Nat) (d : RecipeUpdateInput) :
    Except String RecipeState :=
  match d.ingredients with
  | none => Except.error "Это поле обязательно при обновлении рецепта."
  | some ing =>
    let recipes2 := st.recipes.map (fun r => if r.id == rid then applyRecipeFields r d else r)
    let itemsKept := st.items.filter (fun it => !(it.recipe == rid))
    match insertItems itemsKept (itemRowsOf rid ing) with
    | Except.error e => Except.error e
    | Except.ok items2 =>
      Except.ok { recipes := recipes2, items := items2, nextId := st.nextId }

/-- The line items the read serializer reports for a recipe. -/
def itemsOfRecipe (st : RecipeState) (rid : Nat) : List RecipeIngredientRow :=
  st.items.filter (fun it => it.recipe == rid)

/-- A syntactically valid payload except that `cooking_time` and the
line-item amount exceed the model validators' maximum of 32000. -/
def overMaxInput : RecipeInput :=
  { name := "x", image := "x.png", text := "", cooking_time := 32001,
    ingredients := [⟨1, 32001⟩] }

/-! ### Shopping-list report (`RecipeViewSet.download_shopping_cart`) -/

/-- Grouping key of the aggregation: (ingredient name, measurement unit). -/
abbrev GroupKey := String × String

/-- A joined row, and also an aggregated group line:
(name, unit, amount). -/
abbrev ReportRow := String × String × Nat

/-- The group key of a joined row. -/
def rowKey (r : ReportRow) : GroupKey := (r.1, r.2.1)

/-- Executable lexicographic comparison of character lists, embedding
the SQL `ORDER BY` collation on ingredient names. -/
def charListLe : List Char → List Char → Bool
  | [], _ => true
  | _ :: _, [] => false
  | c :: cs, d :: ds => if c = d then charListLe cs ds else decide (c < d)

/-- Executable alphabetical comparison of strings. -/
def strLeB (a b : String) : Bool := charListLe a.data b.data

/-- Ordering of report groups: alphabetically by ingredient name. -/
def keyLe (a b : GroupKey) : Prop := strLeB a.1 b.1 = true

instance : DecidableRel keyLe :=
  fun a b => inferInstanceAs (Decidable (strLeB a.1 b.1 = true))

instance : IsTotal GroupKey keyLe :=
  ⟨fun a b => by
    have h : ∀ l1 l2 : List Char, charListLe l1 l2 = true ∨ charListLe l2 l1 = true := by
      intro l1
      induction l1 with
      | nil => intro l2; left; rfl
      | cons c cs ih =>
        intro l2
        cases l2 with
        | nil => right; rfl
        | cons d ds =>
          by_cases hcd : c = d
          · subst hcd
            simpa [charListLe] using ih ds
          · rcases lt_or_gt_of_ne hcd with h1 | h1
            · left; simp [charListLe, hcd, h1]
            · right
              have hdc : d ≠ c := fun h2 => hcd h2.symm
              simp [charListLe, hdc, h1]
    exact h a.1.data b.1.data⟩

instance : IsTrans GroupKey keyLe :=
  ⟨fun a b c hab hbc => by
    have h : ∀ l1 l2 l3 : List Char, charListLe l1 l2 = true → charListLe l2 l3 = true →
        charListLe l1 l3 = true := by
      intro l1
      induction l1 with
      | nil => intro l2 l3 _ _; rfl
      | cons x xs ih =>
        intro l2 l3 h12 h23
        cases l2 with
        | nil => simp [charListLe] at h12
        | cons y ys =>
          cases l3 with
          | nil => simp [charListLe] at h23
          | cons z zs =>
            by_cases hxy : x = y
            · subst hxy
              by_cases hyz : x = z
              · subst hyz
                simp only [charListLe, if_pos rfl] at h12 h23 ⊢
                exact ih ys zs h12 h23
              · simp only [charListLe, if_pos rfl] at h12
                simpa [charListLe, hyz] using h23
            · by_cases hyz : y = z
              · subst hyz
                simpa [charListLe, hxy] using h12
              · simp only [charListLe, if_neg hxy, if_neg hyz,
                  decide_eq_true_eq] at h12 h23
                have hxz : x < z := lt_trans h12 h23
                have hne : x ≠ z := ne_of_lt hxz
                simp [charListLe, hne, hxz]
    exact h a.1.data b.1.data c.1.data hab hbc⟩

/-- The distinct `GROUP BY (name, unit)` keys of the joined rows. -/
def groupKeys (rows : List ReportRow) : List GroupKey := (rows.map rowKey).dedup

/-- `Sum("recipe_ingredients__amount")` within one group. -/
def totalFor (rows : List ReportRow) (k : GroupKey) : Nat :=
  ((rows.filter (fun r => rowKey r == k)).map (fun r => r.2.2)).sum

/-- The `values(...).annotate(total_amount=Sum(...)).order_by(name)`
query: group the joined rows by (name, unit), sum the amounts per group
and order the groups by ingredient name. -/
def aggregate (rows : List ReportRow) : List ReportRow :=
  (List.insertionSort keyLe (groupKeys rows)).map (fun k => (k.1, k.2, totalFor rows k))

/-- Database state read by `download_shopping_cart`; `cart` is the
ShoppingCart table. -/
structure ShopDB where
  ingredients : List IngredientRow
  recipes : List RecipeRow
  recipe_items : List RecipeIngredientRow
  cart : List ShoppingCartRow
deriving Repr

/-- Foreign-key resolution of a line item's ingredient. -/
def ingredientLookup (ings : List IngredientRow) (iid : Nat) : Option IngredientRow :=
  ings.find? (fun i => i.id == iid)

/-- The joined rows the aggregation ranges over: the line items of the
recipes in the user's shopping cart, each resolved to its ingredient's
name and unit. -/
def cartRows (db : ShopDB) (u : Nat) : List ReportRow :=
  let cartIds := (db.cart.filter (fun c => c.user == u)).map (fun c => c.recipe)
  let recipeIds := (db.recipes.filter (fun r => cartIds.contains r.id)).map (fun r => r.id)
  (db.recipe_items.filter (fun it => recipeIds.contains it.recipe)).filterMap
    (fun it => (ingredientLookup db.ingredients it.ingredient).map
      (fun ing => (ing.name, ing.measurement_unit, it.amount)))

/-- The `"=" * 50` separator of the report. -/
def sepLine : String := String.mk (List.replicate 50 '=')

/-- The text assembled by `download_shopping_cart`: header, one line
per aggregated group, separator and the count of distinct lines. -/
def shoppingListContent (groups : List ReportRow) : String :=
  String.join
    (["Список покупок\n", sepLine, "\n\n"]
      ++ groups.map (fun g => g.1 ++ " (" ++ g.2.1 ++ ") — " ++ toString g.2.2 ++ "\n")
      ++ ["\n" ++ sepLine, "\n\nВсего ингредиентов: " ++ toString groups.length])

/-- `download_shopping_cart`: an HTTP 200 plain-text response on every
path (status, body). -/
def download_shopping_cart (db : ShopDB) (u : Nat) : Nat × String :=
  (200, shoppingListContent (aggregate (cartRows db u)))

/-- The spec's worked example: user 7's cart holds Recipe A
(200 g sugar, 1 egg) and Recipe B (300 g sugar). -/
def exampleDB : ShopDB :=
  { ingredients := [⟨1, "sugar", "g"⟩, ⟨2, "egg", "шт"⟩]
    recipes := [⟨1, 5, "Recipe A", "a.png", "", 10⟩, ⟨2, 5, "Recipe B", "b.png", "", 20⟩]
    recipe_items := [⟨1, 1, 200⟩, ⟨1, 2, 1⟩, ⟨2, 1, 300⟩]
    cart := [⟨7, 1, 0⟩, ⟨7, 2, 1⟩] }

/-! ### Computed read fields (`RecipeListSerializer`) -/

/-- The request in the serializer context: the requesting user and the
`is_anonymous` flag of `request.user`. -/
structure RequestCtx where
  userId : Nat
  is_anonymous : Bool
deriving DecidableEq, Repr

/-- `RecipeListSerializer.get_is_favorited`: `False` with no request in
the context or an anonymous user, else a Favorite existence check. -/
def get_is_favorited (ctx : Option RequestCtx) (favs : List FavoriteRow) (r : Nat) : Bool :=
  match ctx with
  | none => false
  | some req =>
    if req.is_anonymous then false
    else favs.any (fun f => f.user == req.userId && f.recipe == r)

/-- `RecipeListSerializer.get_is_in_shopping_cart`: same shape over the
ShoppingCart table. -/
def get_is_in_shopping_cart (ctx : Option RequestCtx) (cart : List ShoppingCartRow)
    (r : Nat) : Bool :=
  match ctx with
  | none => false
  | some req =>
    if req.is_anonymous then false
    else cart.any (fun c => c.user == req.userId && c.recipe == r)

/-! ## Theorems -/

/-! ### Short-link encoder -/

theorem b62DigitsRevAux_lt : ∀ fuel n, ∀ d ∈ b62DigitsRevAux fuel n, d < 62 := by
  intro fuel
  induction fuel with
  | zero => intro n d hd; simp [b62DigitsRevAux] at hd
  | succ f ih =>
    intro n d hd
    cases n with
    | zero => simp [b62DigitsRevAux] at hd
    | succ m =>
      simp only [b62DigitsRevAux, List.mem_cons] at hd
      rcases hd with h | h
      · subst h; exact Nat.mod_lt _ (by omega)
      · exact ih _ d h

theorem b62DigitsRevAux_foldr : ∀ fuel n, n ≤ fuel →
    (b62DigitsRevAux fuel n).foldr (fun d a => a * 62 + d) 0 = n := by
  intro fuel
  induction fuel with
  | zero => intro n hn; interval_cases n; simp [b62DigitsRevAux]
  | succ f ih =>
    intro n hn
    cases n with
    | zero => simp [b62DigitsRevAux]
    | succ m =>
      have hdiv : (m + 1) / 62 ≤ f := by
        have := Nat.div_lt_self (Nat.succ_pos m) (by omega : 1 < 62)
        omega
      simp only [b62DigitsRevAux, List.foldr_cons]
      rw [ih _ hdiv]
      omega

theorem b62CharIndex_b62Char : ∀ d, d < 62 → b62CharIndex (b62Char d) = d := by
  decide

theorem decode_encode_base62 : ∀ n, decode_base62 (encode_base62 n) = n := by
  intro n
  by_cases h : n = 0
  · subst h; decide
  · have hmem : ∀ d ∈ (b62DigitsRev n).reverse, d < 62 := by
      intro d hd
      exact b62DigitsRevAux_lt n n d (List.mem_reverse.mp hd)
    rw [encode_base62, if_neg h]
    show (((b62DigitsRev n).map b62Char).reverse).foldl
        (fun a c => a * 62 + b62CharIndex c) 0 = n
    rw [← List.map_reverse]
    rw [List.foldl_map]
    rw [List.foldl_ext (g := fun a d => a * 62 + d) _ 0
      (fun a d hd => by rw [b62CharIndex_b62Char d (hmem d hd)])]
    rw [List.foldl_reverse]
    exact b62DigitsRevAux_foldr n n (le_refl n)

/-- C7: the short-link encoder is a pure function on naturals over the
62-symbol alphabet (digits, lowercase, uppercase), most significant
digit first, with `encode(0) = "0"`, `encode(61) = "Z"`,
`encode(62) = "10"`, and it is injective on all naturals. -/
theorem C7_short_link_encoder :
    encode_base62 0 = "0" ∧ encode_base62 61 = "Z" ∧ encode_base62 62 = "10" ∧
      Function.Injective encode_base62 := by
  refine ⟨by decide, by decide, by decide, ?_⟩
  intro a b h
  have ha := decode_encode_base62 a
  have hb := decode_encode_base62 b
  rw [h] at ha
  omega

/-- Witness for C7: injectivity applied at the concrete inputs 17 and
17, whose encodings coincide by evaluation. -/
theorem C7_short_link_encoder_witness : (17 : Nat) = 17 :=
  C7_short_link_encoder.2.2.2 (show encode_base62 17 = encode_base62 17 from rfl)

/-! ### Shopping-list aggregation -/

theorem charListLe_iff (l1 l2 : List Char) :
    charListLe l1 l2 = true ↔ ¬ List.Lex (· < ·) l2 l1 := by
  induction l1 generalizing l2 with
  | nil =>
    simp only [charListLe, true_iff]
    exact List.Lex.not_nil_right _ _
  | cons c cs ih =>
    cases l2 with
    | nil =>
      simp only [charListLe]
      constructor
      · intro h; exact absurd h (by simp)
      · intro h; exact absurd List.Lex.nil h
    | cons d ds =>
      by_cases hcd : c = d
      · subst hcd
        have hred : charListLe (c :: cs) (c :: ds) = charListLe cs ds := by
          simp [charListLe]
        rw [hred, ih ds]
        constructor
        · intro h hlex
          exact h (List.Lex.cons_iff.mp hlex)
        · intro h hlex
          exact h (List.Lex.cons hlex)
      · simp only [charListLe, if_neg hcd, decide_eq_true_eq]
        constructor
        · intro hlt hlex
          cases hlex with
          | cons h => exact hcd rfl
          | rel h => exact lt_asymm hlt h
        · intro h
          rcases lt_trichotomy c d with h1 | h1 | h1
          · exact h1
          · exact absurd h1 hcd
          · exact absurd (List.Lex.rel h1) h

theorem strLeB_iff (a b : String) : strLeB a b = true ↔ a ≤ b := by
  show charListLe a.data b.data = true ↔ ¬ b < a
  rw [String.lt_iff_toList_lt]
  exact charListLe_iff a.data b.data

theorem aggregate_map_rowKey (rows : List ReportRow) :
    (aggregate rows).map rowKey = List.insertionSort keyLe (groupKeys rows) := by
  rw [aggregate, List.map_map]
  have h : (rowKey ∘ fun k : GroupKey => (k.1, k.2, totalFor rows k)) = id := by
    funext k
    simp [rowKey]
  rw [h, List.map_id]

set_option maxRecDepth 40000 in
/-- C1: the shopping-cart report groups the joined line items by
(ingredient name, measurement unit): the group lines are ordered
alphabetically by name, carry each key exactly once, carry exactly the
keys occurring in the cart, and each line's amount is the sum over its
group; on the spec's example cart the rendered report has one egg line
with total 1, one sugar line with total 500 (egg before sugar) and a
footer count of 2. -/
theorem C1_shopping_report_aggregation :
    (∀ rows : List ReportRow,
      List.Pairwise (fun g1 g2 : ReportRow => g1.1 ≤ g2.1) (aggregate rows)
      ∧ ((aggregate rows).map rowKey).Nodup
      ∧ (∀ k : GroupKey, k ∈ (aggregate rows).map rowKey ↔ k ∈ rows.map rowKey)
      ∧ (∀ g ∈ aggregate rows, g.2.2 = totalFor rows (rowKey g)))
    ∧ download_shopping_cart exampleDB 7 =
      (200, String.join ["Список покупок\n", sepLine, "\n\n", "egg (шт) — 1\n",
        "sugar (g) — 500\n", "\n" ++ sepLine, "\n\nВсего ингредиентов: 2"]) := by
  constructor
  · intro rows
    refine ⟨?_, ?_, ?_, ?_⟩
    · have h := List.sorted_insertionSort keyLe (groupKeys rows)
      exact List.Pairwise.map _ (fun a b hab => (strLeB_iff a.1 b.1).mp hab) h
    · rw [aggregate_map_rowKey]
      exact (List.perm_insertionSort keyLe (groupKeys rows)).symm.nodup
        (List.nodup_dedup _)
    · intro k
      rw [aggregate_map_rowKey, List.mem_insertionSort]
      exact List.mem_dedup
    · intro g hg
      obtain ⟨k, hk, rfl⟩ := List.mem_map.mp hg
      simp [rowKey, totalFor]
  · decide

set_option maxRecDepth 40000 in
/-- Witness for C1: the grouping-key characterization applied at the
example cart's joined rows and the concrete key (sugar, g). -/
theorem C1_shopping_report_aggregation_witness :
    ("sugar", "g") ∈ (aggregate (cartRows exampleDB 7)).map rowKey :=
  ((C1_shopping_report_aggregation.1 (cartRows exampleDB 7)).2.2.1 ("sugar", "g")).mpr
    (by decide)

/-- C9: with no shopping-cart rows for the user, the download is still
the 200 response, with zero aggregated group lines and a footer count
of 0. -/
theorem C9_empty_cart_report : ∀ (db : ShopDB) (u : Nat),
    db.cart.filter (fun c => c.user == u) = [] →
    aggregate (cartRows db u) = [] ∧
    download_shopping_cart db u =
      (200, String.join ["Список покупок\n", sepLine, "\n\n", "\n" ++ sepLine,
        "\n\nВсего ингредиентов: 0"]) := by
  intro db u h
  have hrows : cartRows db u = [] := by
    simp [cartRows, h]
  constructor
  · rw [hrows]
    decide
  · show (200, shoppingListContent (aggregate (cartRows db u))) = _
    rw [hrows]
    decide

set_option maxRecDepth 40000 in
/-- Witness for C9: the example database for a user with an empty
cart. -/
theorem C9_empty_cart_report_witness :
    download_shopping_cart exampleDB 99 =
      (200, String.join ["Список покупок\n", sepLine, "\n\n", "\n" ++ sepLine,
        "\n\nВсего ингредиентов: 0"]) :=
  (C9_empty_cart_report exampleDB 99 (by decide)).2

/-! ### Membership sets -/

theorem list_any_filter_not {α : Type} (l : List α) (p : α → Bool) :
    (l.filter (fun x => !(p x))).any p = false := by
  rw [List.any_eq_false]
  intro x hx
  have h := (List.mem_filter.mp hx).2
  simp at h
  simp [h]

/-- C5 counterexample: for the Subscription membership set at the self
pair (1,1) over an empty table, the first Add of the
Add-Add-Remove-Add sequence fails instead of succeeding. -/
theorem C5_self_pair_counterexample :
    subscribePost [] 1 1 0 = Except.error "Нельзя подписаться на самого себя." := rfl

/-- C5 (amended): for Favorite and ShoppingCart at every (owner,
target) pair, and for Subscription at every pair with owner ≠ target:
Add on an existing pair fails with the conflict error, Remove on a
missing pair fails with an error, and from a state without the pair the
sequence Add, Add, Remove, Add yields success, conflict failure,
success, success. -/
theorem C5_membership_add_remove :
    ∀ (favs : List FavoriteRow) (cart : List ShoppingCartRow)
      (subs : List SubscriptionRow) (u r a t1 t2 : Nat),
      ((favs.any (fun f => f.user == u && f.recipe == r) = true →
          favoritePost favs u r t1 = Except.error "Рецепт уже добавлен в избранное.")
        ∧ (favs.any (fun f => f.user == u && f.recipe == r) = false →
          favoriteDelete favs u r = Except.error "Рецепт не найден в избранном.")
        ∧ (favs.any (fun f => f.user == u && f.recipe == r) = false →
          favoritePost favs u r t1 = Except.ok (favs ++ [(⟨u, r, t1⟩ : FavoriteRow)])
          ∧ favoritePost (favs ++ [(⟨u, r, t1⟩ : FavoriteRow)]) u r t2 =
              Except.error "Рецепт уже добавлен в избранное."
          ∧ favoriteDelete (favs ++ [(⟨u, r, t1⟩ : FavoriteRow)]) u r =
              Except.ok ((favs ++ [(⟨u, r, t1⟩ : FavoriteRow)]).filter
                (fun f => !(f.user == u && f.recipe == r)))
          ∧ favoritePost ((favs ++ [(⟨u, r, t1⟩ : FavoriteRow)]).filter
                (fun f => !(f.user == u && f.recipe == r))) u r t2 =
              Except.ok ((favs ++ [(⟨u, r, t1⟩ : FavoriteRow)]).filter
                (fun f => !(f.user == u && f.recipe == r)) ++ [(⟨u, r, t2⟩ : FavoriteRow)])))
      ∧ ((cart.any (fun c => c.user == u && c.recipe == r) = true →
          shoppingCartPost cart u r t1 =
            Except.error "Рецепт уже добавлен в список покупок.")
        ∧ (cart.any (fun c => c.user == u && c.recipe == r) = false →
          shoppingCartDelete cart u r = Except.error "Рецепт не найден в списке покупок.")
        ∧ (cart.any (fun c => c.user == u && c.recipe == r) = false →
          shoppingCartPost cart u r t1 = Except.ok (cart ++ [(⟨u, r, t1⟩ : ShoppingCartRow)])
          ∧ shoppingCartPost (cart ++ [(⟨u, r, t1⟩ : ShoppingCartRow)]) u r t2 =
              Except.error "Рецепт уже добавлен в список покупок."
          ∧ shoppingCartDelete (cart ++ [(⟨u, r, t1⟩ : ShoppingCartRow)]) u r =
              Except.ok ((cart ++ [(⟨u, r, t1⟩ : ShoppingCartRow)]).filter
                (fun c => !(c.user == u && c.recipe == r)))
          ∧ shoppingCartPost ((cart ++ [(⟨u, r, t1⟩ : ShoppingCartRow)]).filter
                (fun c => !(c.user == u && c.recipe == r))) u r t2 =
              Except.ok ((cart ++ [(⟨u, r, t1⟩ : ShoppingCartRow)]).filter
                (fun c => !(c.user == u && c.recipe == r)) ++ [(⟨u, r, t2⟩ : ShoppingCartRow)])))
      ∧ (u ≠ a →
        (subs.any (fun s => s.user == u && s.author == a) = true →
          subscribePost subs u a t1 = Except.error "Вы уже подписаны на этого автора.")
        ∧ (subs.any (fun s => s.user == u && s.author == a) = false →
          subscribeDelete subs u a = Except.error "Вы не подписаны на этого автора.")
        ∧ (subs.any (fun s => s.user == u && s.author == a) = false →
          subscribePost subs u a t1 = Except.ok (subs ++ [(⟨u, a, t1⟩ : SubscriptionRow)])
          ∧ subscribePost (subs ++ [(⟨u, a, t1⟩ : SubscriptionRow)]) u a t2 =
              Except.error "Вы уже подписаны на этого автора."
          ∧ subscribeDelete (subs ++ [(⟨u, a, t1⟩ : SubscriptionRow)]) u a =
              Except.ok ((subs ++ [(⟨u, a, t1⟩ : SubscriptionRow)]).filter
                (fun s => !(s.user == u && s.author == a)))
          ∧ subscribePost ((subs ++ [(⟨u, a, t1⟩ : SubscriptionRow)]).filter
                (fun s => !(s.user == u && s.author == a))) u a t2 =
              Except.ok ((subs ++ [(⟨u, a, t1⟩ : SubscriptionRow)]).filter
                (fun s => !(s.user == u && s.author == a)) ++ [(⟨u, a, t2⟩ : SubscriptionRow)]))) := by
  intro favs cart subs u r a t1 t2
  refine ⟨⟨?_, ?_, ?_⟩, ⟨?_, ?_, ?_⟩, ?_⟩
  · intro h; simp [favoritePost, h]
  · intro h; simp [favoriteDelete, h]
  · intro h
    refine ⟨by simp [favoritePost, h], by simp [favoritePost], by simp [favoriteDelete], ?_⟩
    simp [favoritePost, list_any_filter_not]
    intro x hx
    tauto
  · intro h; simp [shoppingCartPost, h]
  · intro h; simp [shoppingCartDelete, h]
  · intro h
    refine ⟨by simp [shoppingCartPost, h], by simp [shoppingCartPost],
      by simp [shoppingCartDelete], ?_⟩
    simp [shoppingCartPost, list_any_filter_not]
    intro x hx
    tauto
  · intro hua
    refine ⟨?_, ?_, ?_⟩
    · intro h; simp [subscribePost, hua, h]
    · intro h; simp [subscribeDelete, hua, h]
    · intro h
      refine ⟨by simp [subscribePost, hua, h], by simp [subscribePost, hua],
        by simp [subscribeDelete, hua], ?_⟩
      simp [subscribePost, hua, list_any_filter_not]
      intro x hx
      tauto

/-- Witness for C5 (amended): concrete conflict on an existing
favorite pair, missing-pair removal error on an empty cart table, and
the first step of the subscription sequence at the pair (1,3). -/
theorem C5_membership_add_remove_witness :
    favoritePost [⟨1, 2, 0⟩] 1 2 5 = Except.error "Рецепт уже добавлен в избранное."
    ∧ shoppingCartDelete [] 1 2 = Except.error "Рецепт не найден в списке покупок."
    ∧ subscribePost [] 1 3 5 = Except.ok [(⟨1, 3, 5⟩ : SubscriptionRow)] :=
  ⟨(C5_membership_add_remove [⟨1, 2, 0⟩] [] [] 1 2 3 5 6).1.1 (by decide),
   (C5_membership_add_remove [] [] [] 1 2 3 5 6).2.1.2.1 (by decide),
   ((C5_membership_add_remove [] [] [] 1 2 3 5 6).2.2 (by decide)).2.2 (by decide) |>.1⟩

theorem applySubOp_noSelf (subs : List SubscriptionRow) (op : SubOp)
    (h : noSelfSub subs = true) : noSelfSub (applySubOp subs op) = true := by
  cases op with
  | post u a t =>
    by_cases hua : u = a
    · subst hua
      simp [applySubOp, subscribePost, h]
    · by_cases hex : subs.any (fun s => s.user == u && s.author == a) = true
      · simp [applySubOp, subscribePost, hua, hex, h]
      · simp only [Bool.not_eq_true] at hex
        simp only [applySubOp, subscribePost, beq_iff_eq, if_neg hua, hex,
          Bool.false_eq_true, if_false]
        show (subs ++ [(⟨u, a, t⟩ : SubscriptionRow)]).all (fun s => s.user != s.author) = true
        rw [List.all_append]
        refine (Bool.and_eq_true _ _).mpr ⟨h, ?_⟩
        simp [hua]
  | del u a =>
    by_cases hua : u = a
    · subst hua
      simp [applySubOp, subscribeDelete, h]
    · by_cases hex : subs.any (fun s => s.user == u && s.author == a) = true
      · simp only [applySubOp, subscribeDelete, beq_iff_eq, if_neg hua, hex, if_true]
        show (subs.filter (fun s => !(s.user == u && s.author == a))).all
          (fun s => s.user != s.author) = true
        simp only [noSelfSub, List.all_eq_true] at h ⊢
        intro x hx
        exact h x (List.mem_filter.mp hx).1
      · simp only [Bool.not_eq_true] at hex
        simp [applySubOp, subscribeDelete, hua, hex, h]

/-- C6: a self-subscription request always fails with the
self-subscription error, and the no-self-row invariant of the
subscription table is preserved by every sequence of subscribe and
unsubscribe requests. -/
theorem C6_no_self_subscription :
    (∀ (subs : List SubscriptionRow) (u t : Nat),
      subscribePost subs u u t = Except.error "Нельзя подписаться на самого себя.")
    ∧ ∀ (ops : List SubOp) (subs : List SubscriptionRow),
      noSelfSub subs = true → noSelfSub (runSubOps subs ops) = true := by
  constructor
  · intro subs u t
    simp [subscribePost]
  · intro ops
    induction ops with
    | nil => intro subs h; exact h
    | cons op rest ih =>
      intro subs h
      show noSelfSub (runSubOps (applySubOp subs op) rest) = true
      exact ih _ (applySubOp_noSelf subs op h)

/-- Witness for C6: the invariant holds after a concrete request
sequence that includes a rejected self-subscription. -/
theorem C6_no_self_subscription_witness :
    noSelfSub (runSubOps [] [SubOp.post 1 2 0, SubOp.post 2 2 1, SubOp.del 1 2]) = true :=
  C6_no_self_subscription.2 [SubOp.post 1 2 0, SubOp.post 2 2 1, SubOp.del 1 2] []
    (by decide)

/-! ### Subscriptions listing order -/

/-- C8 counterexample: user 1 subscribed to author 3 at time 1 and to
author 5 at time 2; newest-first by creation time would be [5, 3], but
the endpoint returns [3, 5] (ascending author id). -/
theorem C8_order_counterexample :
    subscriptionsList [3, 5] [(⟨1, 3, 1⟩ : SubscriptionRow), ⟨1, 5, 2⟩] 1 = [3, 5]
    ∧ subscriptionsListSpec [(⟨1, 3, 1⟩ : SubscriptionRow), ⟨1, 5, 2⟩] 1 = [5, 3]
    ∧ subscriptionsList [3, 5] [(⟨1, 3, 1⟩ : SubscriptionRow), ⟨1, 5, 2⟩] 1 ≠
        subscriptionsListSpec [(⟨1, 3, 1⟩ : SubscriptionRow), ⟨1, 5, 2⟩] 1 := by
  refine ⟨by decide, by decide, by decide⟩

/-- C8 (amended): the subscriptions listing returns exactly the
followed authors of the owner that exist in the user table, ordered
ascending by author id (the user table's ordering), not by the
subscription rows' creation time. -/
theorem C8_subscriptions_listing :
    ∀ (users : List Nat) (subs : List SubscriptionRow) (u : Nat),
      (∀ x : Nat, x ∈ subscriptionsList users subs u ↔
        x ∈ users ∧ subs.any (fun s => s.user == u && s.author == x) = true)
      ∧ List.Sorted (fun x y : Nat => x ≤ y) (subscriptionsList users subs u) := by
  intro users subs u
  constructor
  · intro x
    rw [subscriptionsList, List.mem_insertionSort]
    exact List.mem_filter
  · exact List.sorted_insertionSort _ _

/-! ### Recipe create and update -/

theorem insertItems_ok : ∀ (rows items items2 : List RecipeIngredientRow),
    insertItems items rows = Except.ok items2 → items2 = items ++ rows := by
  intro rows
  induction rows with
  | nil =>
    intro items items2 h
    simp only [insertItems] at h
    cases h
    simp
  | cons row rest ih =>
    intro items items2 h
    simp only [insertItems] at h
    cases hi : insertItem items row with
    | error e => rw [hi] at h; cases h
    | ok items1 =>
      rw [hi] at h
      have h3 : items1 = items ++ [row] := by
        unfold insertItem at hi
        split at hi
        · cases hi
        · cases hi; rfl
      have h2 := ih items1 items2 h
      rw [h2, h3, List.append_assoc]
      rfl

theorem itemRowsOf_recipe (rid : Nat) (ing : List ItemInput) :
    ∀ it ∈ itemRowsOf rid ing, it.recipe = rid := by
  intro it hit
  obtain ⟨x, _, rfl⟩ := List.mem_map.mp hit
  rfl

theorem filter_recipe_append (items new : List RecipeIngredientRow) (rid : Nat)
    (hnew : ∀ it ∈ new, it.recipe = rid) :
    ((items.filter (fun it => !(it.recipe == rid))) ++ new).filter
      (fun it => it.recipe == rid) = new := by
  rw [List.filter_append]
  have h1 : (items.filter (fun it => !(it.recipe == rid))).filter
      (fun it => it.recipe == rid) = [] := by
    rw [List.filter_filter]
    refine List.filter_eq_nil_iff.mpr ?_
    intro a _
    simp
  have h2 : new.filter (fun it => it.recipe == rid) = new := by
    refine List.filter_eq_self.mpr ?_
    intro a ha
    simp [hnew a ha]
  rw [h1, h2, List.nil_append]

/-- C2: under the spec-modelled single-transaction boundary, recipe
Create either succeeds with the recipe row appended and the submitted
line items written in full, or fails with no state produced; Replace
either succeeds with the recipe's line items being exactly the
submitted set, or fails with no state produced — no partial write is
observable in any outcome. -/
theorem C2_recipe_write_atomic :
    ∀ (st : RecipeState) (a : Nat) (inp : RecipeInput),
      ((∃ st2, recipeCreateTx st a inp = Except.ok st2
          ∧ st2.recipes = st.recipes ++ [newRecipeRow st.nextId a inp]
          ∧ st2.items = st.items ++ itemRowsOf st.nextId inp.ingredients)
        ∨ (∃ e, recipeCreateTx st a inp = Except.error e))
      ∧ ∀ (rid : Nat) (d : RecipeUpdateInput),
        ((∃ st2 ing, d.ingredients = some ing
            ∧ recipeUpdateTx st rid d = Except.ok st2
            ∧ itemsOfRecipe st2 rid = itemRowsOf rid ing)
          ∨ (∃ e, recipeUpdateTx st rid d = Except.error e)) := by
  intro st a inp
  constructor
  · cases hi : insertItems st.items (itemRowsOf st.nextId inp.ingredients) with
    | error e => exact Or.inr ⟨e, by simp [recipeCreateTx, hi]⟩
    | ok items2 =>
      refine Or.inl ⟨⟨st.recipes ++ [newRecipeRow st.nextId a inp], items2, st.nextId + 1⟩,
        by simp [recipeCreateTx, hi], rfl, insertItems_ok _ _ _ hi⟩
  · intro rid d
    cases hd : d.ingredients with
    | none =>
      exact Or.inr ⟨"Это поле обязательно при обновлении рецепта.",
        by simp [recipeUpdateTx, hd]⟩
    | some ing =>
      cases hi : insertItems (st.items.filter (fun it => !(it.recipe == rid)))
          (itemRowsOf rid ing) with
      | error e => exact Or.inr ⟨e, by simp [recipeUpdateTx, hd, hi]⟩
      | ok items2 =>
        refine Or.inl ⟨⟨st.recipes.map (fun r => if r.id == rid then applyRecipeFields r d
          else r), items2, st.nextId⟩, ing, rfl, by simp [recipeUpdateTx, hd, hi], ?_⟩
        show items2.filter (fun it => it.recipe == rid) = itemRowsOf rid ing
        rw [insertItems_ok _ _ _ hi]
        exact filter_recipe_append _ _ _ (itemRowsOf_recipe rid ing)

/-- C3: Replace fails with the mandatory-field error whenever the
validated data has no `ingredients`, whatever the other fields hold;
and when `ingredients` is supplied and the write succeeds, the
recipe's line items afterwards are exactly the submitted set. -/
theorem C3_update_requires_line_items :
    ∀ (st : RecipeState) (rid : Nat) (d : RecipeUpdateInput),
      (d.ingredients = none →
        recipeUpdateTx st rid d =
          Except.error "Это поле обязательно при обновлении рецепта.")
      ∧ (∀ ing st2, d.ingredients = some ing →
        recipeUpdateTx st rid d = Except.ok st2 →
        itemsOfRecipe st2 rid = itemRowsOf rid ing) := by
  intro st rid d
  constructor
  · intro h
    simp [recipeUpdateTx, h]
  · intro ing st2 hd hok
    simp only [recipeUpdateTx, hd] at hok
    cases hi : insertItems (st.items.filter (fun it => !(it.recipe == rid)))
        (itemRowsOf rid ing) with
    | error e => rw [hi] at hok; cases hok
    | ok items2 =>
      rw [hi] at hok
      cases hok
      show items2.filter (fun it => it.recipe == rid) = itemRowsOf rid ing
      rw [insertItems_ok _ _ _ hi]
      exact filter_recipe_append _ _ _ (itemRowsOf_recipe rid ing)

/-- Witness for C3: a concrete update without `ingredients` fails, and
a concrete update with `ingredients` ends with exactly the submitted
line items. -/
theorem C3_update_requires_line_items_witness :
    recipeUpdateTx ⟨[], [], 0⟩ 1 ⟨none, none, none, none, none⟩ =
      Except.error "Это поле обязательно при обновлении рецепта."
    ∧ itemsOfRecipe ⟨[⟨1, 5, "n", "i", "t", 10⟩], [⟨1, 4, 7⟩], 2⟩ 1 =
        itemRowsOf 1 [⟨4, 7⟩] :=
  ⟨(C3_update_requires_line_items ⟨[], [], 0⟩ 1 ⟨none, none, none, none, none⟩).1 rfl,
   (C3_update_requires_line_items ⟨[⟨1, 5, "n", "i", "t", 10⟩], [⟨1, 9, 3⟩], 2⟩ 1
      ⟨none, none, none, none, some [⟨4, 7⟩]⟩).2 [⟨4, 7⟩]
      ⟨[⟨1, 5, "n", "i", "t", 10⟩], [⟨1, 4, 7⟩], 2⟩ rfl rfl⟩

/-! ### Create validation bounds -/

/-- C4 (code bug): the create-path validation accepts `cooking_time`
and line-item `amount` values above 32000 — the serializer redeclares
both fields with only `min_value=1`, and the create path never runs the
model validators — while the model fields declare 32000 as the maximum;
the lower-bound, non-empty and duplicate violations are rejected as the
claim states. -/
theorem C4_create_validation_gap :
    runCreateValidation overMaxInput = Except.ok overMaxInput
    ∧ modelCookingTimeValid 32001 = false
    ∧ modelAmountValid 32001 = false
    ∧ runCreateValidation { overMaxInput with cooking_time := 0 } =
        Except.error ("cooking_time", "Ensure this value is greater than or equal to 1.")
    ∧ runCreateValidation { overMaxInput with ingredients := [] } =
        Except.error ("ingredients", "Необходимо добавить хотя бы один ингредиент.")
    ∧ runCreateValidation { overMaxInput with ingredients := [⟨1, 5⟩, ⟨1, 6⟩] } =
        Except.error ("ingredients", "Ингредиенты не должны повторяться.")
    ∧ runCreateValidation { overMaxInput with ingredients := [⟨1, 0⟩] } =
        Except.error ("ingredients", "Ensure this value is greater than or equal to 1.") := by
  exact ⟨rfl, by decide, by decide, rfl, rfl, rfl, rfl⟩

/-! ### Computed read fields -/

/-- C10: with no request in the serializer context, or with an
anonymous requesting user, both `is_favorited` and
`is_in_shopping_cart` are false regardless of the Favorite and
ShoppingCart tables. -/
theorem C10_anonymous_computed_fields :
    ∀ (favs : List FavoriteRow) (cart : List ShoppingCartRow) (r : Nat),
      (get_is_favorited none favs r = false
        ∧ get_is_in_shopping_cart none cart r = false)
      ∧ ∀ req : RequestCtx, req.is_anonymous = true →
        get_is_favorited (some req) favs r = false
        ∧ get_is_in_shopping_cart (some req) cart r = false := by
  intro favs cart r
  refine ⟨⟨rfl, rfl⟩, ?_⟩
  intro req h
  constructor
  · simp [get_is_favorited, h]
  · simp [get_is_in_shopping_cart, h]

/-- Witness for C10: an anonymous request over a Favorite table that
does contain the (user, recipe) pair still reports false. -/
theorem C10_anonymous_computed_fields_witness :
    get_is_favorited (some ⟨1, true⟩) [⟨1, 2, 0⟩] 2 = false :=
  ((C10_anonymous_computed_fields [⟨1, 2, 0⟩] [] 2).2 ⟨1, true⟩ rfl).1

end Foodgram
